import Mathlib

/-!
Verification of the resilience-orchestration core of a Shopee scraping
program (`app/main.py`, `app/api.py`, `app/extension.py`).

The Python code is shallowly embedded: pure string scanning becomes
functions on `String` / `List Char`, Python's `sub in s` substring test
becomes `strContains`, Python sets of strings become `Finset String`,
`random.choice` becomes selection by an arbitrary index argument, and
code that may raise becomes `Except String`-valued with the enclosing
`try/except` expressed as a `match` on the result.
-/

/-- Boolean prefix test on character lists (the scanning primitive behind
Python's `str.replace` and `in`). -/
def lpfx : List Char → List Char → Bool
  | [], _ => true
  | _ :: _, [] => false
  | a :: p, b :: s => decide (a = b) && lpfx p s

/-- `occursB pat s` is true iff `pat` occurs as a contiguous substring of `s`
(Python's `pat in s` on strings). -/
def occursB (pat : List Char) : List Char → Bool
  | [] => decide (pat = [])
  | c :: s' => lpfx pat (c :: s') || occursB pat s'

/-- Python's `sub in s` substring test. -/
def strContains (s sub : String) : Bool :=
  occursB sub.toList s.toList

/-- Python's `str.strip()`: drop leading and trailing whitespace. -/
def pyStrip (s : String) : List Char :=
  ((s.toList.dropWhile Char.isWhitespace).reverse.dropWhile Char.isWhitespace).reverse

/-! ## `app/extension.py` — the SadCaptcha JS patcher -/

/-- The literal replaced by `update_js_contents` (`extension.py` line 18). -/
def needleStr : String := "var apiKey = localStorage.getItem(\"sadCaptchaKey\");"

def needle : List Char := needleStr.toList

/-- Fixed prefix of the replacement text `var apiKey = "{api_key}";`. -/
def replPre : List Char := "var apiKey = \"".toList

/-- Fixed tail of the replacement text. -/
def replPost : List Char := "\";".toList

/-- The replacement string built from the API key (the Python f-string
`f'var apiKey = "{api_key}";'`). -/
def repl (k : List Char) : List Char := replPre ++ k ++ replPost

/-- Python's `str.replace`: scan left to right, replace each
non-overlapping occurrence of `pat` by `r`, resume after the replaced
segment.  (The code only calls this with the non-empty `needle`.) -/
def replaceAll (pat r : List Char) (s : List Char) : List Char :=
  match s with
  | [] => []
  | c :: cs =>
    if h : lpfx pat (c :: cs) = true ∧ pat ≠ []
    then r ++ replaceAll pat r ((c :: cs).drop pat.length)
    else c :: replaceAll pat r cs
termination_by s.length
decreasing_by
  · have hp : 0 < pat.length := List.length_pos.mpr h.2
    simp only [List.length_drop, List.length_cons]
    omega
  · simp only [List.length_cons]
    omega

/-- `extension.py` `update_js_contents`: replace the localStorage lookup
by the literal API key. -/
def update_js_contents (content api_key : String) : String :=
  (replaceAll needle (repl api_key.toList) content.toList).asString

/-! ## `app/main.py` — ProxyRotator -/

structure Proxy where
  server : String
  username : Option String
  password : Option String
deriving DecidableEq, Repr

/-- `ProxyRotator` state: the loaded pool and the set of server strings
already tried in the current cycle (a Python `set`). -/
structure RotatorState where
  proxies : List Proxy
  tried_proxies : Finset String

/-- `ProxyRotator.get_random_proxy` (`main.py` lines 54-76).  Randomness is
modelled by the extra `pick` argument indexing the available list; the
`none` fallback on the final lookup is unreachable (proved below). -/
def get_random_proxy (st : RotatorState) (pick : Nat) : Option Proxy × RotatorState :=
  if st.proxies = [] then (none, st)
  else
    let tried0 := if st.proxies.length ≤ st.tried_proxies.card
                  then (∅ : Finset String) else st.tried_proxies
    let avail0 := st.proxies.filter (fun p => !(decide (p.server ∈ tried0)))
    let tried1 := if avail0 = [] then (∅ : Finset String) else tried0
    let avail1 := if avail0 = [] then st.proxies else avail0
    match avail1[pick % avail1.length]? with
    | none => (none, st)
    | some p => (some p, { st with tried_proxies := insert p.server tried1 })

/-- Run a sequence of selections, threading the rotator state. -/
def runRotator (st : RotatorState) : List Nat → List (Option Proxy)
  | [] => []
  | pick :: picks =>
    let r := get_random_proxy st pick
    r.1 :: runRotator r.2 picks

/-! ## `app/main.py` — block detector `is_shopee_blocking` -/

/-- The block-indicator strings (`main.py` lines 92-102). -/
def block_indicators : List String :=
  ["驗證資訊失敗",
   "抱歉，我們無法驗證資訊，請稍等並再試一次。",
   "再試一次",
   "請登入蝦皮購物 App",
   "抱歉，目前發生了一些錯誤。請下載並登入蝦皮購物 App 以繼續使用。",
   "登出"]

/-- The Google sign-in button selectors probed by the detector
(`main.py` lines 110-118). -/
def google_button_selectors : List String :=
  ["button:has-text(\"Google\")",
   ".google-login",
   ".social-white-google-png",
   ".social-login svg[title=\"Google\"]",
   "div[aria-label=\"Continue with Google\"]",
   "img[alt*=\"Google\"]",
   "a[href*=\"accounts.google.com\"]"]

/-- The observations `is_shopee_blocking` makes on the page.  Steps that can
raise are `Except`-valued; `lastResponse` is the stored main-document
status (absent when no navigation response was recorded). -/
structure BlockPage where
  url : Except String String
  content : Except String String
  selectorFound : String → Except String Bool
  lastResponse : Option Nat

/-- The body of `is_shopee_blocking` (`main.py` lines 82-141): the code
inside the outer `try`.  Faults of individual selector probes are
swallowed by the inner `except: pass` (treated as "not found"); faults
of the url/content reads escape as `.error`. -/
def shopee_block_body (p : BlockPage) : Except String Bool :=
  match p.url with
  | Except.error e => Except.error e
  | Except.ok current_url =>
    match p.content with
    | Except.error e => Except.error e
    | Except.ok page_content =>
      if decide ((pyStrip page_content).length < 100) && strContains current_url "shopee"
      then Except.ok true
      else if block_indicators.any (fun ind => strContains page_content ind)
      then Except.ok true
      else
        let found_expected_element :=
          google_button_selectors.any (fun sel =>
            match p.selectorFound sel with
            | Except.ok b => b
            | Except.error _ => false)
        if !found_expected_element && strContains current_url "shopee"
        then Except.ok true
        else
          match p.lastResponse with
          | some status => if decide (400 ≤ status) then Except.ok true else Except.ok false
          | none => Except.ok false

/-- `is_shopee_blocking` with its outer `except Exception: return True`
(`main.py` lines 142-144). -/
def is_shopee_blocking (p : BlockPage) : Bool :=
  match shopee_block_body p with
  | Except.ok b => b
  | Except.error _ => true

/-! ## `app/main.py` — captcha outcome classification (also `app/api.py`) -/

/-- The post-wait captcha error strings (`main.py` lines 532-540,
`api.py` lines 227-235; the two lists are identical). -/
def captcha_error_texts : List String :=
  ["頁面無法顯示",
   "發生錯誤！請返回再試一次或回到主頁",
   "Page cannot be displayed",
   "An error occurred! Please go back and try again or return to the homepage",
   "驗證資訊失敗",
   "抱歉，目前發生了一些錯誤。請下載並登入蝦皮購物 App 以繼續使用。",
   "登出"]

/-- The scan for captcha error text (`main.py` lines 542-547). -/
def captcha_error_found (content : String) : Bool :=
  captcha_error_texts.any (fun t => strContains content t)

inductive CaptchaClass
  | CaptchaError
  | CaptchaSuccess
deriving DecidableEq, Repr

/-- Classification of the page after the fixed captcha wait: error text
present means the captcha failed, otherwise it is taken as solved. -/
def classify_captcha (content : String) : CaptchaClass :=
  if captcha_error_found content then CaptchaClass.CaptchaError
  else CaptchaClass.CaptchaSuccess

/-- The app-only error strings checked after login (`main.py` lines 697-702). -/
def app_only_error_texts : List String :=
  ["Please log in to Shopee Shopping App",
   "Sorry, some errors have occurred",
   "請登入蝦皮購物 App",
   "抱歉，目前發生了一些錯誤"]

/-- The scan for app-only error text (`main.py` lines 704-709). -/
def app_error_found (content : String) : Bool :=
  app_only_error_texts.any (fun t => strContains content t)

/-! ## `app/main.py` — the Google login orchestrator -/

/-- The observable situation one call of `handle_google_login_process`
(`main.py` lines 147-335) runs against.  The `Fault` fields say whether the
corresponding block of driver calls raises. -/
structure LoginEnv where
  popupLoadFault : Bool
  google_email : Option String
  google_password : Option String
  emailStepFault : Bool
  passwordFieldFound : Bool
  passwordStepFault : Bool
  consentFault : Bool
deriving DecidableEq

/-- Python truthiness of an optional environment string (`if not GOOGLE_EMAIL`). -/
def truthy : Option String → Bool
  | none => false
  | some s => !(s.isEmpty)

/-- The fixed manual-login wait used when no credentials are configured
(`main.py` line 159). -/
def manual_login_wait_ms : Nat := 120000

/-- The body of `handle_google_login_process` up to but not including the
outermost `except` (lines 149-327): the nested inner `try/except` blocks
already return `False` themselves, a consent fault returns `True`
(lines 310-319), and only a fault before the credential check escapes. -/
def login_body (env : LoginEnv) : Except String Bool :=
  if env.popupLoadFault then Except.error "popup wait fault"
  else if !(truthy env.google_email) || !(truthy env.google_password) then Except.ok false
  else if env.emailStepFault then Except.ok false
  else if !env.passwordFieldFound then Except.ok false
  else if env.passwordStepFault then Except.ok false
  else if env.consentFault then Except.ok true
  else Except.ok true

/-- `handle_google_login_process` with its outermost
`except Exception: ... return False` (lines 329-335). -/
def handle_google_login_process (env : LoginEnv) : Bool :=
  match login_body env with
  | Except.ok b => b
  | Except.error _ => false

/-! ## `app/main.py` — one attempt of the retry loop (`main` lines 402-782) -/

/-- Outcome of the `launch_browser_with_proxy` call (lines 338-371):
`ok` when it returns; `failAfterOpen` when `launch_persistent_context`
succeeded but a later step (`new_page`, stealth setup, routing) raised, so a
context is open yet the caller's `browser` variable was never assigned;
`failBeforeOpen` when `launch_persistent_context` itself raised. -/
inductive LaunchResult
  | ok
  | failAfterOpen
  | failBeforeOpen
deriving DecidableEq, Repr

/-- The observable situation of one iteration of the attempt loop.
`content1` is the page content read after login (line 495); `content2` is
the content re-read after the 4-minute captcha wait (line 528). -/
structure AttemptEnv where
  launch : LaunchResult
  gotoTimeout : Bool
  blocked : Bool
  googleButtonFound : Bool
  popupFault : Bool
  loginPopupSuccess : Bool
  captchaFound : Bool
  content1 : String
  content2 : String
deriving DecidableEq

/-- Terminal classification of one attempt. -/
inductive AttemptOutcome
  | LaunchFailed
  | Timeout
  | Blocked
  | NoGoogleButton
  | UnexpectedError
  | LoginFailed
  | CaptchaError
  | AppOnlyError
  | BlankPage
  | Success
deriving DecidableEq, Repr

/-- How one iteration of `main`'s while loop classifies (lines 402-782).
`login_success` is set to `True` only on line 516, inside the
`captcha_found` branch; in the no-captcha branch it stays `False`, so after
the app-error and blank checks on `content1` the attempt falls through to
line 764 ("Google login failed") and is retried. -/
def classify_attempt (env : AttemptEnv) : AttemptOutcome :=
  match env.launch with
  | LaunchResult.failBeforeOpen => AttemptOutcome.LaunchFailed
  | LaunchResult.failAfterOpen => AttemptOutcome.LaunchFailed
  | LaunchResult.ok =>
    if env.gotoTimeout then AttemptOutcome.Timeout
    else if env.blocked then AttemptOutcome.Blocked
    else if !env.googleButtonFound then AttemptOutcome.NoGoogleButton
    else if env.popupFault then AttemptOutcome.UnexpectedError
    else if !env.loginPopupSuccess then AttemptOutcome.LoginFailed
    else if env.captchaFound then
      if captcha_error_found env.content2 then AttemptOutcome.CaptchaError
      else if app_error_found env.content2 then AttemptOutcome.AppOnlyError
      else if decide ((pyStrip env.content2).length < 200) then AttemptOutcome.BlankPage
      else AttemptOutcome.Success
    else
      if app_error_found env.content1 then AttemptOutcome.AppOnlyError
      else if decide ((pyStrip env.content1).length < 200) then AttemptOutcome.BlankPage
      else AttemptOutcome.LoginFailed

/-- Browser-session events of one attempt. -/
inductive Ev
  | openS
  | closeS
deriving DecidableEq, Repr

/-- The open/close events one attempt performs on its own session, path by
path.  When the launch helper raised after creating the context, the
handlers' `await browser.close()` refers to the previous attempt's
(already closed) handle — or is unbound on the first attempt — so the new
context gets no close event. -/
def attempt_trace (env : AttemptEnv) : List Ev :=
  match env.launch with
  | LaunchResult.failBeforeOpen => []
  | LaunchResult.failAfterOpen => [Ev.openS]
  | LaunchResult.ok =>
    Ev.openS ::
    (if env.gotoTimeout then [Ev.closeS]                               -- line 774
     else if env.blocked then [Ev.closeS]                              -- line 421
     else if !env.googleButtonFound then [Ev.closeS]                   -- line 465
     else if env.popupFault then [Ev.closeS]                           -- line 740
     else if !env.loginPopupSuccess then [Ev.closeS]                   -- line 766
     else if env.captchaFound then
       if captcha_error_found env.content2 then [Ev.closeS]            -- line 561
       else if app_error_found env.content2 then [Ev.closeS]           -- line 720
       else if decide ((pyStrip env.content2).length < 200) then [Ev.closeS] -- line 733
       else [Ev.closeS]                                                -- line 766, success
     else
       if app_error_found env.content1 then [Ev.closeS]                -- line 720
       else if decide ((pyStrip env.content1).length < 200) then [Ev.closeS] -- line 733
       else [Ev.closeS])                                               -- line 766

/-- Maximum attempt count (`main.py` line 399). -/
def max_attempts_before_break : Nat := 10

/-- Result of the whole while loop: either the loop test terminated it, or
the `NameError` from `browser.close()` with `browser` unbound escaped and
aborted the run (caught by the top-level handler, line 789). -/
inductive LoopResult
  | finished (attempts : Nat) (success : Bool)
  | crashed (attempts : Nat)
deriving DecidableEq, Repr

def LoopResult.attemptCount : LoopResult → Nat
  | LoopResult.finished a _ => a
  | LoopResult.crashed a => a

/-- The while loop of `main` (lines 398-787).  `envs n` is the situation
met by the (n+1)-th attempt, `browserBound` records whether any earlier
launch call returned (so the name `browser` is bound in the handlers). -/
def runLoop (envs : Nat → AttemptEnv) (attempts : Nat) (browserBound : Bool) : LoopResult :=
  if max_attempts_before_break ≤ attempts then LoopResult.finished attempts false
  else if (envs attempts).launch ≠ LaunchResult.ok ∧ browserBound = false
  then LoopResult.crashed (attempts + 1)
  else if classify_attempt (envs attempts) = AttemptOutcome.Success
  then LoopResult.finished (attempts + 1) true
  else runLoop envs (attempts + 1)
         (browserBound || decide ((envs attempts).launch = LaunchResult.ok))
termination_by max_attempts_before_break - attempts
decreasing_by
  simp only [max_attempts_before_break] at *
  omega

/-! ## `app/api.py` — the `/scrape` endpoint -/

/-- The `ScrapingResponse` pydantic model (`api.py` lines 25-28), with the
scraped record abstracted to key/value pairs. -/
structure ApiResponse where
  success : Bool
  data : Option (List (String × String))
  message : Option String
deriving DecidableEq

/-- What the endpoint hands back to FastAPI: a `ScrapingResponse`, or a
raised `HTTPException` (status, detail). -/
inductive ApiReply
  | response (r : ApiResponse)
  | httpException (status : Nat) (detail : String)
deriving DecidableEq

/-- How one request turns out: normal scrape, captcha-error page after the
wait, `PlaywrightTimeoutError` in the inner `try`, another exception in
the inner `try` (with its `str(e)` text), or an exception outside the
inner `try` (e.g. browser launch). -/
inductive ScrapeRun
  | ok (data : List (String × String))
  | captchaFail
  | timeout
  | innerFault (msg : String)
  | outerFault (msg : String)
deriving DecidableEq

/-- `scrape_shopee_product` (`api.py` lines 186-283), by outcome case. -/
def scrape_shopee_product : ScrapeRun → ApiReply
  | ScrapeRun.ok d =>
      ApiReply.response ⟨true, some d, some "Product data scraped successfully"⟩
  | ScrapeRun.captchaFail =>
      ApiReply.response ⟨false, none, some "Captcha failed - received error page"⟩
  | ScrapeRun.timeout =>
      ApiReply.response ⟨false, none, some "Timeout occurred while accessing the product page"⟩
  | ScrapeRun.innerFault m =>
      ApiReply.response ⟨false, none, some ("Error during scraping: " ++ m)⟩
  | ScrapeRun.outerFault m =>
      ApiReply.httpException 500 ("Server error: " ++ m)

/-! ## Concrete example inputs used below -/

/-- A page whose url/content reads succeed, whose url is off the shopee
domain, and whose selector probes all raise. -/
def probeFaultPage : BlockPage :=
  ⟨Except.ok "https://example.com", Except.ok "x",
   fun _ => Except.error "probe fault", none⟩

/-- A page whose content read raises. -/
def contentFaultPage : BlockPage :=
  ⟨Except.ok "https://shopee.tw/---i.31188538.19323502897", Except.error "content fetch fault",
   fun _ => Except.ok false, none⟩

/-- An attempt in which login completed, no challenge marker is present,
and the post-login page is long and clean (no app-only error text). -/
def noMarkerCleanEnv : AttemptEnv :=
  { launch := LaunchResult.ok, gotoTimeout := false, blocked := false,
    googleButtonFound := true, popupFault := false, loginPopupSuccess := true,
    captchaFound := false, content1 := String.mk (List.replicate 210 'a'),
    content2 := "" }

/-- An attempt whose launch helper raised after creating the context. -/
def partialLaunchEnv : AttemptEnv :=
  { launch := LaunchResult.failAfterOpen, gotoTimeout := false, blocked := false,
    googleButtonFound := true, popupFault := false, loginPopupSuccess := true,
    captchaFound := false, content1 := "", content2 := "" }

/-- An attempt the block detector rejects. -/
def blockedEnv : AttemptEnv :=
  { launch := LaunchResult.ok, gotoTimeout := false, blocked := true,
    googleButtonFound := true, popupFault := false, loginPopupSuccess := true,
    captchaFound := false, content1 := "", content2 := "" }

/-- A login run whose initial popup wait raises. -/
def popupFaultLoginEnv : LoginEnv :=
  { popupLoadFault := true, google_email := some "user@example.com",
    google_password := some "secret", emailStepFault := false,
    passwordFieldFound := true, passwordStepFault := false, consentFault := false }

/-- A login run with no configured credentials. -/
def noCredsLoginEnv : LoginEnv :=
  { popupLoadFault := false, google_email := none, google_password := none,
    emailStepFault := false, passwordFieldFound := true,
    passwordStepFault := false, consentFault := false }

/-- A login run that reaches consent handling and faults there. -/
def consentFaultLoginEnv : LoginEnv :=
  { popupLoadFault := false, google_email := some "user@example.com",
    google_password := some "secret", emailStepFault := false,
    passwordFieldFound := true, passwordStepFault := false, consentFault := true }

/-! # Theorems -/

/-! ## Helper lemmas on the string-scanning primitives -/

theorem lpfx_nil_left (z : List Char) : lpfx [] z = true := rfl

theorem lpfx_nil_right {p : List Char} (h : lpfx p [] = true) : p = [] := by
  cases p with
  | nil => rfl
  | cons a p => simp [lpfx] at h

theorem lpfx_cons {a b : Char} {p s : List Char} :
    lpfx (a :: p) (b :: s) = true ↔ a = b ∧ lpfx p s = true := by
  simp [lpfx]

theorem lpfx_length {p z : List Char} (h : lpfx p z = true) : p.length ≤ z.length := by
  induction p generalizing z with
  | nil => simp
  | cons a p ih =>
    cases z with
    | nil => simp [lpfx] at h
    | cons b s =>
      rcases lpfx_cons.mp h with ⟨_, h2⟩
      simpa using ih h2

theorem lpfx_getElem {p z : List Char} (h : lpfx p z = true) :
    ∀ j, j < p.length → z[j]? = p[j]? := by
  induction p generalizing z with
  | nil => intro j hj; simp at hj
  | cons a p ih =>
    cases z with
    | nil => simp [lpfx] at h
    | cons b s =>
      rcases lpfx_cons.mp h with ⟨hab, h2⟩
      intro j hj
      cases j with
      | zero => simp [hab]
      | succ j =>
        simp only [List.getElem?_cons_succ]
        exact ih h2 j (by simpa using hj)

theorem lpfx_append_left {p x y : List Char} (h : lpfx p (x ++ y) = true)
    (hl : p.length ≤ x.length) : lpfx p x = true := by
  induction p generalizing x with
  | nil => rfl
  | cons a p ih =>
    cases x with
    | nil => simp at hl
    | cons b s =>
      rcases lpfx_cons.mp h with ⟨hab, h2⟩
      exact lpfx_cons.mpr ⟨hab, ih h2 (by simpa using hl)⟩

theorem lpfx_split {p x y : List Char} (h : lpfx p (x ++ y) = true)
    (hl : x.length ≤ p.length) :
    p.take x.length = x ∧ lpfx (p.drop x.length) y = true := by
  induction x generalizing p with
  | nil => simpa using h
  | cons b x ih =>
    cases p with
    | nil => simp at hl
    | cons a p =>
      rcases lpfx_cons.mp h with ⟨hab, h2⟩
      rcases ih h2 (by simpa using hl) with ⟨ht, hd⟩
      refine ⟨?_, ?_⟩
      · simp [List.take_cons, ht, hab]
      · simpa using hd

theorem occursB_nil (pat : List Char) : occursB pat [] = decide (pat = []) := rfl

theorem occursB_cons (pat : List Char) (c : Char) (s : List Char) :
    occursB pat (c :: s) = (lpfx pat (c :: s) || occursB pat s) := rfl

theorem occursB_append_split {pat x y : List Char}
    (h : occursB pat (x ++ y) = true) :
    (∃ i, i < x.length ∧ lpfx pat (x.drop i ++ y) = true) ∨ occursB pat y = true := by
  induction x with
  | nil => exact Or.inr (by simpa using h)
  | cons a x ih =>
    rw [List.cons_append, occursB_cons] at h
    rcases Bool.or_eq_true_iff.mp h with h1 | h2
    · exact Or.inl ⟨0, by simp, by simpa using h1⟩
    · rcases ih h2 with ⟨i, hi, hl⟩ | hr
      · exact Or.inl ⟨i + 1, by simpa using hi, by simpa using hl⟩
      · exact Or.inr hr

theorem occursB_of_lpfx_drop {pat s : List Char} {i : Nat} (hne : pat ≠ [])
    (h : lpfx pat (s.drop i) = true) : occursB pat s = true := by
  induction s generalizing i with
  | nil =>
    simp only [List.drop_nil] at h
    exact absurd (lpfx_nil_right h) hne
  | cons c s ih =>
    cases i with
    | zero =>
      rw [List.drop_zero] at h
      rw [occursB_cons, h, Bool.true_or]
    | succ i =>
      rw [List.drop_succ_cons] at h
      rw [occursB_cons, ih h, Bool.or_true]

theorem occursB_false_no_lpfx {pat s : List Char} (hne : pat ≠ [])
    (h : occursB pat s = false) (i : Nat) : lpfx pat (s.drop i) = false := by
  by_contra hc
  rw [Bool.not_eq_false] at hc
  rw [occursB_of_lpfx_drop hne hc] at h
  cases h

/-! ## C6 — a block indicator in the content forces `is_shopee_blocking` -/

/-- C6: whenever the page content contains one of the configured
block-indicator strings, `is_shopee_blocking` returns `true`, whatever the
current URL, the selector-probe results (the expected-marker flag) and the
stored transport status are. -/
theorem c6_indicator_implies_blocked (u content : String)
    (sel : String → Except String Bool) (status : Option Nat)
    (h : block_indicators.any (fun ind => strContains content ind) = true) :
    is_shopee_blocking ⟨Except.ok u, Except.ok content, sel, status⟩ = true := by
  unfold is_shopee_blocking shopee_block_body
  simp only []
  by_cases h1 : (decide ((pyStrip content).length < 100) && strContains u "shopee") = true
  · rw [if_pos h1]
  · rw [if_neg h1, if_pos h]

/-- Witness for C6: a concrete page whose content carries the indicator
`驗證資訊失敗`, an off-domain URL, failing marker probes and a clean status. -/
theorem c6_witness :
    block_indicators.any (fun ind => strContains "x驗證資訊失敗x" ind) = true ∧
      is_shopee_blocking ⟨Except.ok "https://example.com", Except.ok "x驗證資訊失敗x",
        fun _ => Except.ok false, some 200⟩ = true :=
  ⟨by decide,
   c6_indicator_implies_blocked "https://example.com" "x驗證資訊失敗x"
     (fun _ => Except.ok false) (some 200) (by decide)⟩

/-! ## C7 — fail-closed behaviour of the block detector -/

/-- Counterexample to C7 as stated: on `probeFaultPage` every selector
probe (an internal step of the evaluation) raises, the faults are
swallowed by the inner `except: pass`, and because the URL is off the
shopee domain the detector returns `false`, not `true`. -/
theorem c7_selector_fault_not_blocked :
    probeFaultPage.selectorFound ".google-login" = Except.error "probe fault" ∧
      shopee_block_body probeFaultPage = Except.ok false ∧
      is_shopee_blocking probeFaultPage = false := by
  refine ⟨rfl, rfl, rfl⟩

/-- C7 amended: any fault that escapes the selector-probe loop to the
detector's outer handler — in particular a fault of the URL or content
read — makes `is_shopee_blocking` return `true` instead of propagating. -/
theorem c7_escaping_fault_blocked (p : BlockPage) (e : String)
    (h : shopee_block_body p = Except.error e) : is_shopee_blocking p = true := by
  unfold is_shopee_blocking
  rw [h]

/-- Witness for the amended C7: a page whose content read faults. -/
theorem c7_witness : is_shopee_blocking contentFaultPage = true :=
  c7_escaping_fault_blocked contentFaultPage "content fetch fault" rfl

/-! ## C9 — classification after the captcha wait -/

/-- C9: the post-wait page is classified `CaptchaError` exactly when it
contains one of the configured error strings, and `CaptchaSuccess` exactly
when it contains none of them. -/
theorem c9_captcha_classification (content : String) :
    (classify_captcha content = CaptchaClass.CaptchaError ↔
      ∃ t ∈ captcha_error_texts, strContains content t = true) ∧
    (classify_captcha content = CaptchaClass.CaptchaSuccess ↔
      ∀ t ∈ captcha_error_texts, strContains content t = false) := by
  unfold classify_captcha captcha_error_found
  by_cases h : captcha_error_texts.any (fun t => strContains content t) = true
  · rw [if_pos h]
    constructor
    · simpa using List.any_eq_true.mp h
    · constructor
      · intro hfalse; cases hfalse
      · intro hall
        rcases List.any_eq_true.mp h with ⟨t, ht, hc⟩
        rw [hall t ht] at hc
        cases hc
  · rw [if_neg h]
    rw [Bool.not_eq_true] at h
    constructor
    · constructor
      · intro hfalse; cases hfalse
      · intro hex
        rcases hex with ⟨t, ht, hc⟩
        exact absurd hc (List.any_eq_false.mp h t ht)
    · constructor
      · intro _
        intro t ht
        have := List.any_eq_false.mp h t ht
        simpa using this
      · intro _; rfl

/-! ## C8 — the login orchestrator's fault handling -/

/-- Counterexample to C8 as stated: a fault during consent handling is an
internal fault, yet `handle_google_login_process` converts it to `True`
(`main.py` lines 310-319), not to the failure result. -/
theorem c8_consent_fault_returns_true :
    consentFaultLoginEnv.consentFault = true ∧
      handle_google_login_process consentFaultLoginEnv = true := by
  exact ⟨rfl, rfl⟩

/-- C8 amended: `handle_google_login_process` always returns a plain
boolean; every fault that escapes its body to the outermost handler is
converted to `False`; with no configured credentials it returns `False`
(after the fixed 120000 ms manual wait); but a consent-handling fault is
deliberately converted to `True`. -/
theorem c8_login_never_raises (env : LoginEnv) :
    (∀ e, login_body env = Except.error e → handle_google_login_process env = false) ∧
    ((truthy env.google_email = false ∨ truthy env.google_password = false) →
      handle_google_login_process env = false ∧ manual_login_wait_ms = 120000) ∧
    (handle_google_login_process env = true ∨ handle_google_login_process env = false) := by
  refine ⟨?_, ?_, ?_⟩
  · intro e he
    unfold handle_google_login_process
    rw [he]
  · intro hcred
    refine ⟨?_, rfl⟩
    unfold handle_google_login_process login_body
    by_cases hp : env.popupLoadFault = true
    · rw [if_pos hp]
    · rw [if_neg hp, if_pos ?_]
      rcases hcred with hc | hc <;> rw [hc] <;> simp
  · cases h : handle_google_login_process env
    · exact Or.inr rfl
    · exact Or.inl rfl

/-- Witness for the amended C8: the popup-wait fault case and the
missing-credentials case, at concrete inputs. -/
theorem c8_witness :
    handle_google_login_process popupFaultLoginEnv = false ∧
      (handle_google_login_process noCredsLoginEnv = false ∧
        manual_login_wait_ms = 120000) :=
  ⟨(c8_login_never_raises popupFaultLoginEnv).1 "popup wait fault" rfl,
   (c8_login_never_raises noCredsLoginEnv).2.1 (Or.inl rfl)⟩

/-! ## C3 — error surface of the `/scrape` endpoint -/

/-- Counterexample to C3 as stated: the generic inner handler
(`api.py` line 280) embeds the raw exception text `str(e)` in the reply's
message, and an exception outside the inner block is re-raised as an
`HTTPException` (line 283) rather than a structured response. -/
theorem c3_inner_exception_text_surfaced :
    scrape_shopee_product (ScrapeRun.innerFault "Connection refused by upstream proxy")
        = ApiReply.response ⟨false, none,
            some "Error during scraping: Connection refused by upstream proxy"⟩ ∧
      strContains "Error during scraping: Connection refused by upstream proxy"
        "Connection refused by upstream proxy" = true ∧
      scrape_shopee_product (ScrapeRun.outerFault "browser launch failed")
        = ApiReply.httpException 500 "Server error: browser launch failed" := by
  refine ⟨rfl, by decide, rfl⟩

/-- C3 amended: every non-success outcome handled inside the inner `try`
comes back as a structured `success = false` response carrying a message
(the generic handler's message embeds the exception text); only a fault
outside the inner block surfaces as an HTTP 500 exception. -/
theorem c3_inner_failures_structured (r : ScrapeRun)
    (hok : ∀ d, r ≠ ScrapeRun.ok d) (houter : ∀ m, r ≠ ScrapeRun.outerFault m) :
    ∃ msg, scrape_shopee_product r = ApiReply.response ⟨false, none, some msg⟩ := by
  cases r with
  | ok d => exact absurd rfl (hok d)
  | captchaFail => exact ⟨_, rfl⟩
  | timeout => exact ⟨_, rfl⟩
  | innerFault m => exact ⟨_, rfl⟩
  | outerFault m => exact absurd rfl (houter m)

/-- Witness for the amended C3: the timeout case. -/
theorem c3_witness :
    ∃ msg, scrape_shopee_product ScrapeRun.timeout
      = ApiReply.response ⟨false, none, some msg⟩ :=
  c3_inner_failures_structured ScrapeRun.timeout
    (fun d h => nomatch h) (fun m h => nomatch h)

/-! ## C1 — when is an attempt classified `Success`? -/

/-- Counterexample to C1 as stated: an attempt whose login orchestration
completed, with no challenge marker on the page, no app-only error text
and a long non-blank page, is classified `LoginFailed` — not `Success` —
because `login_success = True` is only ever set inside the
`captcha_found` branch (`main.py` line 516). -/
theorem c1_no_marker_clean_page_not_success :
    noMarkerCleanEnv.loginPopupSuccess = true ∧
      noMarkerCleanEnv.captchaFound = false ∧
      app_error_found noMarkerCleanEnv.content1 = false ∧
      200 ≤ (pyStrip noMarkerCleanEnv.content1).length ∧
      classify_attempt noMarkerCleanEnv = AttemptOutcome.LoginFailed ∧
      classify_attempt noMarkerCleanEnv ≠ AttemptOutcome.Success := by
  refine ⟨rfl, rfl, ?_, ?_, ?_, ?_⟩ <;> set_option maxRecDepth 8000 in decide

/-- C1 amended: an attempt is classified `Success` exactly when the launch,
navigation, block check, button search, popup handling and login succeed,
a challenge marker IS present, and the post-wait content shows no captcha
error text, no app-only error text, and is not near-blank.  In the absence
of a challenge marker the attempt can never be `Success`. -/
theorem c1_success_characterization (env : AttemptEnv) :
    classify_attempt env = AttemptOutcome.Success ↔
      (env.launch = LaunchResult.ok ∧ env.gotoTimeout = false ∧
       env.blocked = false ∧ env.googleButtonFound = true ∧
       env.popupFault = false ∧ env.loginPopupSuccess = true ∧
       env.captchaFound = true ∧
       captcha_error_found env.content2 = false ∧
       app_error_found env.content2 = false ∧
       200 ≤ (pyStrip env.content2).length) := by
  obtain ⟨l, gt, bl, gb, pf, ls, cf, c1, c2⟩ := env
  cases l with
  | failBeforeOpen => simp [classify_attempt]
  | failAfterOpen => simp [classify_attempt]
  | ok =>
    simp only [classify_attempt]
    split_ifs <;> simp_all [Nat.not_lt]

/-! ## C2 — session lifecycle of one attempt -/

/-- Counterexample to C2 as stated: when the launch helper faults after
`launch_persistent_context` has created the context, the attempt's trace
is a lone `open` — the new session is never closed — and concatenated with
the next attempt's trace this shows two opens with no intervening close. -/
theorem c2_partial_launch_leaks_session :
    partialLaunchEnv.launch = LaunchResult.failAfterOpen ∧
      attempt_trace partialLaunchEnv = [Ev.openS] ∧
      (attempt_trace partialLaunchEnv).count Ev.closeS = 0 ∧
      attempt_trace partialLaunchEnv ++ attempt_trace blockedEnv
        = [Ev.openS, Ev.openS, Ev.closeS] := by
  refine ⟨rfl, rfl, rfl, rfl⟩

/-- C2 amended: on every attempt whose launch helper returns (so the
session handle is actually handed to the loop body), every exit path —
blocked, no login button, popup fault, login failure, captcha error,
app-only error, blank page, timeout, or success — closes that session
exactly once before the attempt ends. -/
theorem c2_launched_session_closed_on_every_path (env : AttemptEnv)
    (h : env.launch = LaunchResult.ok) :
    attempt_trace env = [Ev.openS, Ev.closeS] := by
  obtain ⟨l, gt, bl, gb, pf, ls, cf, c1, c2⟩ := env
  cases l with
  | failBeforeOpen => cases h
  | failAfterOpen => cases h
  | ok =>
    simp only [attempt_trace]
    split_ifs <;> rfl

/-- Witness for the amended C2: the blocked exit path at a concrete input. -/
theorem c2_witness : attempt_trace blockedEnv = [Ev.openS, Ev.closeS] :=
  c2_launched_session_closed_on_every_path blockedEnv rfl

/-! ## C4 — the attempt loop is bounded -/

theorem classify_blocked_launch_ok {env : AttemptEnv}
    (h : classify_attempt env = AttemptOutcome.Blocked) :
    env.launch = LaunchResult.ok := by
  cases hl : env.launch <;> simp [classify_attempt, hl] at h ⊢

theorem runLoop_bound_aux (envs : Nat → AttemptEnv) :
    ∀ (n a : Nat) (b : Bool), 10 - a ≤ n → a ≤ 10 →
      (runLoop envs a b).attemptCount ≤ 10 := by
  intro n
  induction n with
  | zero =>
    intro a b h1 h2
    have ha : a = 10 := by omega
    subst ha
    rw [runLoop, if_pos (by simp [max_attempts_before_break])]
    exact le_refl 10
  | succ n ih =>
    intro a b h1 h2
    by_cases hma : max_attempts_before_break ≤ a
    · rw [runLoop, if_pos hma]
      exact h2
    · rw [runLoop, if_neg hma]
      have ha : a < 10 := by
        simpa [max_attempts_before_break, Nat.not_le] using hma
      by_cases hc : (envs a).launch ≠ LaunchResult.ok ∧ b = false
      · rw [if_pos hc]
        simp only [LoopResult.attemptCount]
        omega
      · rw [if_neg hc]
        by_cases hs : classify_attempt (envs a) = AttemptOutcome.Success
        · rw [if_pos hs]
          simp only [LoopResult.attemptCount]
          omega
        · rw [if_neg hs]
          exact ih (a + 1) _ (by omega) (by omega)

theorem runLoop_blocked_aux (envs : Nat → AttemptEnv)
    (hB : ∀ k, classify_attempt (envs k) = AttemptOutcome.Blocked) :
    ∀ (n a : Nat) (b : Bool), 10 - a ≤ n → a ≤ 10 →
      runLoop envs a b = LoopResult.finished 10 false := by
  intro n
  induction n with
  | zero =>
    intro a b h1 h2
    have ha : a = 10 := by omega
    subst ha
    rw [runLoop, if_pos (by simp [max_attempts_before_break])]
  | succ n ih =>
    intro a b h1 h2
    by_cases hma : max_attempts_before_break ≤ a
    · have ha : a = 10 := by
        simp only [max_attempts_before_break] at hma
        omega
      subst ha
      rw [runLoop, if_pos hma]
    · rw [runLoop, if_neg hma]
      have hok : (envs a).launch = LaunchResult.ok := classify_blocked_launch_ok (hB a)
      rw [if_neg (by simp [hok])]
      rw [if_neg (by simp [hB a])]
      exact ih (a + 1) _ (by omega)
        (by simp only [max_attempts_before_break, Nat.not_le] at hma; omega)

/-- C4: the attempt loop never performs more attempts than the configured
maximum of 10; and when the block detector rejects every attempt, it
performs exactly 10 attempts and reports overall failure. -/
theorem c4_attempt_loop_bounded :
    (∀ envs : Nat → AttemptEnv,
        (runLoop envs 0 false).attemptCount ≤ max_attempts_before_break) ∧
    (∀ envs : Nat → AttemptEnv,
        (∀ k, classify_attempt (envs k) = AttemptOutcome.Blocked) →
        runLoop envs 0 false = LoopResult.finished 10 false) := by
  constructor
  · intro envs
    exact runLoop_bound_aux envs 10 0 false (by omega) (by omega)
  · intro envs hB
    exact runLoop_blocked_aux envs hB 10 0 false (by omega) (by omega)

/-- Witness for C4: every attempt blocked at a concrete input. -/
theorem c4_witness :
    runLoop (fun _ => blockedEnv) 0 false = LoopResult.finished 10 false :=
  c4_attempt_loop_bounded.2 (fun _ => blockedEnv) (fun _ => rfl)

/-! ## C5 — the proxy rotator -/

theorem getElem_mod_some (l : List Proxy) (hl : l ≠ []) (pick : Nat) :
    ∃ p, l[pick % l.length]? = some p := by
  have hpos : 0 < l.length := List.length_pos.mpr hl
  have hidx : pick % l.length < l.length := Nat.mod_lt _ hpos
  exact ⟨l[pick % l.length], List.getElem?_eq_getElem hidx⟩

theorem rotator_step (ps : List Proxy) (T : Finset String) (pick : Nat)
    (hnd : (ps.map Proxy.server).Nodup) (hcard : T.card < ps.length) :
    ∃ p, get_random_proxy ⟨ps, T⟩ pick = (some p, ⟨ps, insert p.server T⟩)
      ∧ p ∈ ps ∧ p.server ∉ T := by
  have hne : ps ≠ [] := by
    intro h
    subst h
    simp at hcard
  have hfil : ps.filter (fun p => !(decide (p.server ∈ T))) ≠ [] := by
    intro hempty
    have hall : ∀ p ∈ ps, p.server ∈ T := by
      intro p hp
      have := List.filter_eq_nil_iff.mp hempty p hp
      simpa using this
    have hsubset : (ps.map Proxy.server).toFinset ⊆ T := by
      intro s hs
      rw [List.mem_toFinset] at hs
      rcases List.mem_map.mp hs with ⟨p, hp, rfl⟩
      exact hall p hp
    have hcard2 : (ps.map Proxy.server).toFinset.card ≤ T.card :=
      Finset.card_le_card hsubset
    rw [List.toFinset_card_of_nodup hnd, List.length_map] at hcard2
    omega
  have hpos : 0 < (ps.filter (fun p => !(decide (p.server ∈ T)))).length :=
    List.length_pos.mpr hfil
  have hidx : pick % (ps.filter (fun p => !(decide (p.server ∈ T)))).length
      < (ps.filter (fun p => !(decide (p.server ∈ T)))).length := Nat.mod_lt _ hpos
  refine ⟨(ps.filter (fun p => !(decide (p.server ∈ T))))[pick %
    (ps.filter (fun p => !(decide (p.server ∈ T)))).length], ?_, ?_, ?_⟩
  · simp only [get_random_proxy]
    rw [if_neg hne]
    simp only [if_neg (Nat.not_le.mpr hcard), if_neg hfil]
    rw [List.getElem?_eq_getElem hidx]
  · exact List.mem_of_mem_filter (List.getElem_mem hidx)
  · have hmem := List.mem_filter.mp (List.getElem_mem hidx)
    simpa using hmem.2

theorem rotator_run (ps : List Proxy) (hnd : (ps.map Proxy.server).Nodup) :
    ∀ (picks : List Nat) (T : Finset String),
      T.card + picks.length ≤ ps.length →
      ∃ sel : List Proxy,
        runRotator ⟨ps, T⟩ picks = sel.map some ∧
        (sel.map Proxy.server).Nodup ∧
        (∀ p ∈ sel, p.server ∉ T) ∧
        sel.length = picks.length := by
  intro picks
  induction picks with
  | nil =>
    intro T hle
    exact ⟨[], rfl, by simp, by simp, rfl⟩
  | cons pick picks ih =>
    intro T hle
    rcases rotator_step ps T pick hnd (by simp at hle; omega) with ⟨p, hstep, hmem, hnot⟩
    have hcardins : (insert p.server T).card = T.card + 1 :=
      Finset.card_insert_of_not_mem hnot
    rcases ih (insert p.server T) (by simp at hle ⊢; omega)
      with ⟨sel, hrun, hnd2, hnotins, hlen⟩
    refine ⟨p :: sel, ?_, ?_, ?_, by simp [hlen]⟩
    · simp only [runRotator, hstep, hrun, List.map_cons]
    · simp only [List.map_cons, List.nodup_cons]
      refine ⟨?_, hnd2⟩
      intro hmem2
      rcases List.mem_map.mp hmem2 with ⟨q, hq, hqs⟩
      have hq2 := hnotins q hq
      rw [hqs] at hq2
      exact hq2 (Finset.mem_insert_self _ _)
    · intro q hq
      rcases List.mem_cons.mp hq with rfl | hq'
      · exact hnot
      · intro hqT
        exact (hnotins q hq') (Finset.mem_insert_of_mem hqT)

/-- C5: from a freshly initialised rotator over a pool with pairwise
distinct servers, N consecutive selections succeed and return N distinct
servers; the selection never returns `none` while the pool is non-empty;
and the (N+1)-th selection may repeat (shown at N = 1, where the second
call returns the same proxy again). -/
theorem c5_rotator_distinct_and_total :
    (∀ (ps : List Proxy) (picks : List Nat),
        (ps.map Proxy.server).Nodup → picks.length = ps.length →
        ∃ sel : List Proxy,
          runRotator ⟨ps, ∅⟩ picks = sel.map some ∧
          (sel.map Proxy.server).Nodup ∧ sel.length = ps.length) ∧
    (∀ (st : RotatorState) (pick : Nat),
        st.proxies ≠ [] → ((get_random_proxy st pick).1).isSome = true) ∧
    runRotator ⟨[⟨"s1", none, none⟩], ∅⟩ [0, 0]
      = [some ⟨"s1", none, none⟩, some ⟨"s1", none, none⟩] := by
  refine ⟨?_, ?_, ?_⟩
  · intro ps picks hnd hlen
    rcases rotator_run ps hnd picks ∅ (by simp [hlen]) with ⟨sel, hrun, hnd2, _, hlen2⟩
    exact ⟨sel, hrun, hnd2, by omega⟩
  · intro st pick hne
    obtain ⟨ps, T⟩ := st
    simp only [get_random_proxy]
    rw [if_neg hne]
    by_cases hcard : ps.length ≤ T.card
    · rw [if_pos hcard]
      by_cases hfil : ps.filter (fun p => !(decide (p.server ∈ (∅ : Finset String)))) = []
      · rw [if_pos hfil]
        rcases getElem_mod_some ps hne pick with ⟨p, hp⟩
        rw [hp]
        rfl
      · rw [if_neg hfil]
        rcases getElem_mod_some _ hfil pick with ⟨p, hp⟩
        rw [hp]
        rfl
    · rw [if_neg hcard]
      by_cases hfil : ps.filter (fun p => !(decide (p.server ∈ T))) = []
      · rw [if_pos hfil]
        rcases getElem_mod_some ps hne pick with ⟨p, hp⟩
        rw [hp]
        rfl
      · rw [if_neg hfil]
        rcases getElem_mod_some _ hfil pick with ⟨p, hp⟩
        rw [hp]
        rfl
  · rfl

/-! ## C10 — idempotence of the JS patcher

`update_js_contents` replaces every occurrence of `needle` by
`var apiKey = "<key>";`.  The key facts are that the needle cannot occur
inside the replacement text (when the key itself does not contain it) and
cannot re-form across the boundaries of a replacement, because no nonempty
suffix of the replacement is a prefix of the needle and only position 0
of the needle holds `v`. -/

theorem needle_ne_nil : needle ≠ [] := by decide

theorem needle_len : needle.length = 51 := by decide

theorem needle_zero : needle[0]? = some 'v' := by decide

theorem needle_thirteen : needle[13]? = some 'l' := by decide

theorem needle_eq_cons : needle = 'v' :: needle.drop 1 := by decide

theorem needle_no_v : ∀ j, j < 51 → 1 ≤ j → needle[j]? ≠ some 'v' := by decide

theorem needle_no_semi : ∀ j, j < 50 → needle[j]? ≠ some ';' := by decide

theorem needle_take_one : needle.take 1 = ['v'] := by decide

theorem needle_drop_not_pre_replPost :
    ∀ m, m < 51 → lpfx (needle.drop m) replPost = false := by decide

theorem occursB_needle_replPost : occursB needle replPost = false := by decide

theorem replPre_len : replPre.length = 14 := by decide

theorem replPre_zero : replPre[0]? = some 'v' := by decide

theorem replPre_thirteen : replPre[13]? = some '"' := by decide

theorem replPre_no_v : ∀ j, j < 14 → 1 ≤ j → replPre[j]? ≠ some 'v' := by decide

theorem replPost_len : replPost.length = 2 := by decide

theorem replPost_one : replPost[1]? = some ';' := by decide

theorem replPost_drop_one : replPost.drop 1 = [';'] := by decide

theorem repl_len (k : List Char) : (repl k).length = k.length + 16 := by
  rw [repl, List.length_append, List.length_append, replPre_len, replPost_len]
  omega

theorem repl_zero (k : List Char) : (repl k)[0]? = some 'v' := by
  have h1 : (0 : Nat) < (replPre ++ k).length := by
    rw [List.length_append, replPre_len]
    omega
  rw [repl, List.getElem?_append, if_pos h1, List.getElem?_append,
    if_pos (by rw [replPre_len]; omega), replPre_zero]

/-- The needle does not occur inside the replacement text, provided the
key does not contain the needle. -/
theorem no_occur_repl (k : List Char) (hk : occursB needle k = false) :
    occursB needle (repl k) = false := by
  by_contra hc
  rw [Bool.not_eq_false, repl] at hc
  have hr0 : (replPre ++ k).length = k.length + 14 := by
    rw [List.length_append, replPre_len]
    omega
  rcases occursB_append_split hc with ⟨i, hi, hl⟩ | hrest
  · by_cases hi14 : i < 14
    · by_cases hi0 : i = 0
      · subst hi0
        rw [List.drop_zero] at hl
        have h13 := lpfx_getElem hl 13 (by rw [needle_len]; omega)
        rw [needle_thirteen, List.getElem?_append, if_pos (by omega),
          List.getElem?_append, if_pos (by rw [replPre_len]; omega),
          replPre_thirteen] at h13
        exact absurd h13 (by decide)
      · have h0 := lpfx_getElem hl 0 (by rw [needle_len]; omega)
        rw [needle_zero, List.getElem?_append,
          if_pos (by rw [List.length_drop]; omega),
          List.getElem?_drop, List.getElem?_append,
          if_pos (by rw [replPre_len]; omega)] at h0
        exact replPre_no_v (i + 0) (by omega) (by omega) h0
    · have hsplit : (replPre ++ k).drop i = k.drop (i - replPre.length) := by
        rw [List.drop_append_eq_append_drop,
          List.drop_of_length_le (by rw [replPre_len]; omega), List.nil_append]
      rw [hsplit] at hl
      by_cases hfit : needle.length ≤ (k.drop (i - replPre.length)).length
      · have h1 := lpfx_append_left hl hfit
        have h2 := occursB_of_lpfx_drop needle_ne_nil h1
        rw [hk] at h2
        cases h2
      · rcases lpfx_split hl (Nat.le_of_lt (Nat.not_le.mp hfit)) with ⟨_, hd⟩
        have hlt : (k.drop (i - replPre.length)).length < 51 := by
          rw [needle_len] at hfit
          omega
        rw [needle_drop_not_pre_replPost _ hlt] at hd
        cases hd
  · rw [occursB_needle_replPost] at hrest
    cases hrest

/-- The needle cannot occur in `repl k ++ T` when it occurs neither in the
key nor in `T`: it does not fit inside the replacement, and it cannot
straddle the boundary since every nonempty suffix of the replacement ends
in `";` while the needle's only `;` is its very last character. -/
theorem no_occur_repl_boundary (k : List Char) (hk : occursB needle k = false)
    (T : List Char) (hT : occursB needle T = false) :
    occursB needle (repl k ++ T) = false := by
  by_contra hc
  rw [Bool.not_eq_false] at hc
  rcases occursB_append_split hc with ⟨i, hi, hl⟩ | hrest
  · by_cases hlen : needle.length ≤ ((repl k).drop i).length
    · have h1 := lpfx_append_left hl hlen
      have h2 := occursB_of_lpfx_drop needle_ne_nil h1
      rw [no_occur_repl k hk] at h2
      cases h2
    · rcases lpfx_split hl (Nat.le_of_lt (Nat.not_le.mp hlen)) with ⟨htake, _⟩
      have hr0 : (replPre ++ k).length = k.length + 14 := by
        rw [List.length_append, replPre_len]
        omega
      have hLlt : ((repl k).drop i).length < 51 := by
        rw [needle_len] at hlen
        omega
      by_cases hi2 : i ≤ (replPre ++ k).length
      · have hdrop : (repl k).drop i = (replPre ++ k).drop i ++ replPost := by
          rw [repl, List.drop_append_of_le_length hi2]
        rw [hdrop] at htake hLlt
        have hdl : ((replPre ++ k).drop i ++ replPost).length
            = ((replPre ++ k).drop i).length + 2 := by
          rw [List.length_append, replPost_len]
        have hlast := congrArg
          (fun l => l[((replPre ++ k).drop i ++ replPost).length - 1]?) htake
        simp only at hlast
        rw [List.getElem?_take, if_pos (by omega)] at hlast
        rw [List.getElem?_append_right (by omega)] at hlast
        rw [show ((replPre ++ k).drop i ++ replPost).length - 1
              - ((replPre ++ k).drop i).length = 1 from by omega,
          replPost_one] at hlast
        exact needle_no_semi _ (by omega) hlast
      · have hieq : i = (replPre ++ k).length + 1 := by
          have := repl_len k
          omega
        have hdrop : (repl k).drop i = [';'] := by
          rw [repl, hieq, List.drop_append 1, replPost_drop_one]
        rw [hdrop] at htake
        have h1 : needle.take 1 = [';'] := by simpa using htake
        rw [needle_take_one] at h1
        exact absurd h1 (by decide)
  · rw [hT] at hrest
    cases hrest

/-- If a nonempty tail of the needle is a prefix of `replaceAll`'s output,
it already was a prefix of the input: the output can only differ by
starting a replacement, and the replacement starts with `v`, which no
positive position of the needle holds. -/
theorem replaceAll_head_align (k : List Char) :
    ∀ (N : Nat) (s : List Char) (m : Nat), s.length ≤ N → 1 ≤ m → m ≤ 51 →
      lpfx (needle.drop m) (replaceAll needle (repl k) s) = true →
      lpfx (needle.drop m) s = true := by
  intro N
  induction N with
  | zero =>
    intro s m hs _ _ h
    have hsnil : s = [] := by
      cases s with
      | nil => rfl
      | cons a s => simp at hs
    subst hsnil
    rw [replaceAll] at h
    exact h
  | succ n ih =>
    intro s m hs hm1 hm2 h
    by_cases hm51 : m = 51
    · subst hm51
      rw [show needle.drop 51 = [] from by decide]
      rfl
    · have hmlt : m < 51 := by omega
      cases s with
      | nil =>
        rw [replaceAll] at h
        have hnil := lpfx_nil_right h
        have hlen : (needle.drop m).length = 0 := by rw [hnil]; rfl
        rw [List.length_drop, needle_len] at hlen
        omega
      | cons d s' =>
        rw [replaceAll] at h
        by_cases hg : lpfx needle (d :: s') = true ∧ needle ≠ []
        · rw [dif_pos hg] at h
          exfalso
          have h0 := lpfx_getElem h 0 (by rw [List.length_drop, needle_len]; omega)
          rw [List.getElem?_append, if_pos (by rw [repl_len]; omega), repl_zero,
            List.getElem?_drop] at h0
          exact needle_no_v (m + 0) (by omega) (by omega) h0.symm
        · rw [dif_neg hg] at h
          have hdm : needle.drop m = needle[m] :: needle.drop (m + 1) :=
            List.drop_eq_getElem_cons (by rw [needle_len]; omega)
          rw [hdm] at h ⊢
          rcases lpfx_cons.mp h with ⟨hd, htail⟩
          refine lpfx_cons.mpr ⟨hd, ?_⟩
          exact ih s' (m + 1) (by simp only [List.length_cons] at hs; omega)
            (by omega) (by omega) htail

/-- The output of `replaceAll` on the needle contains no occurrence of the
needle, provided the key does not contain it. -/
theorem replaceAll_no_occur (k : List Char) (hk : occursB needle k = false) :
    ∀ (N : Nat) (c : List Char), c.length ≤ N →
      occursB needle (replaceAll needle (repl k) c) = false := by
  intro N
  induction N with
  | zero =>
    intro c hc
    have hcnil : c = [] := by
      cases c with
      | nil => rfl
      | cons a c => simp at hc
    subst hcnil
    rw [replaceAll]
    decide
  | succ n ih =>
    intro c hc
    cases c with
    | nil =>
      rw [replaceAll]
      decide
    | cons d c' =>
      rw [replaceAll]
      by_cases hg : lpfx needle (d :: c') = true ∧ needle ≠ []
      · rw [dif_pos hg]
        apply no_occur_repl_boundary k hk
        apply ih
        simp only [List.length_drop, List.length_cons]
        rw [needle_len]
        simp only [List.length_cons] at hc
        omega
      · rw [dif_neg hg]
        rw [occursB_cons]
        have hT := ih c' (by simp only [List.length_cons] at hc; omega)
        rw [hT, Bool.or_false]
        by_contra hcon
        rw [Bool.not_eq_false] at hcon
        rw [needle_eq_cons] at hcon
        rcases lpfx_cons.mp hcon with ⟨hv, htail⟩
        have hc' := replaceAll_head_align k n c' 1
          (by simp only [List.length_cons] at hc; omega) (by omega) (by omega) htail
        have hfull : lpfx needle (d :: c') = true := by
          rw [needle_eq_cons]
          exact lpfx_cons.mpr ⟨hv, hc'⟩
        exact hg ⟨hfull, needle_ne_nil⟩

/-- `replaceAll` is the identity on strings with no occurrence of the
pattern. -/
theorem replaceAll_id (pat r : List Char) :
    ∀ s, occursB pat s = false → replaceAll pat r s = s := by
  intro s
  induction s with
  | nil => intro _; rw [replaceAll]
  | cons d s' ih =>
    intro h
    rw [occursB_cons] at h
    rcases Bool.or_eq_false_iff.mp h with ⟨h1, h2⟩
    rw [replaceAll, dif_neg (by rintro ⟨hlp, _⟩; rw [h1] at hlp; cases hlp)]
    rw [ih h2]

/-- C10: `update_js_contents` is idempotent whenever the API key does not
itself contain the replaced needle. -/
theorem c10_update_js_idem (content api_key : String)
    (h : strContains api_key needleStr = false) :
    update_js_contents (update_js_contents content api_key) api_key
      = update_js_contents content api_key := by
  have hk : occursB needle api_key.toList = false := h
  unfold update_js_contents
  congr 1
  have hlist : (List.asString (replaceAll needle (repl api_key.toList) content.toList)).toList
      = replaceAll needle (repl api_key.toList) content.toList := rfl
  rw [hlist]
  exact replaceAll_id needle (repl api_key.toList) _
    (replaceAll_no_occur api_key.toList hk content.toList.length content.toList le_rfl)

/-- Witness for C10 at a concrete content and key. -/
theorem c10_witness :
    strContains "MY-KEY" needleStr = false ∧
      update_js_contents (update_js_contents
          "x var apiKey = localStorage.getItem(\"sadCaptchaKey\"); y" "MY-KEY") "MY-KEY"
        = update_js_contents
            "x var apiKey = localStorage.getItem(\"sadCaptchaKey\"); y" "MY-KEY" :=
  ⟨by decide, c10_update_js_idem _ _ (by decide)⟩

/-- Witness for C5: a two-proxy pool with distinct servers, and a
non-empty single-proxy pool for the never-`none` part. -/
theorem c5_witness :
    (∃ sel : List Proxy,
        runRotator ⟨[⟨"sA", none, none⟩, ⟨"sB", none, none⟩], ∅⟩ [0, 0] = sel.map some ∧
        (sel.map Proxy.server).Nodup ∧ sel.length = 2) ∧
    ((get_random_proxy ⟨[⟨"sA", none, none⟩], ∅⟩ 5).1).isSome = true :=
  ⟨c5_rotator_distinct_and_total.1 [⟨"sA", none, none⟩, ⟨"sB", none, none⟩] [0, 0]
      (by decide) rfl,
   c5_rotator_distinct_and_total.2.1 ⟨[⟨"sA", none, none⟩], ∅⟩ 5 (by decide)⟩
